import Mathlib

/-!
Verification of the connection-resilience engine of `src/stream/TweetStream.ts`
(node-twitter-api-v2).

The TypeScript class `TweetStream` is shallowly embedded as a pure state
machine.  Asynchronous effects are made explicit:

* JavaScript numbers holding retry counts, attempt indices and millisecond
  delays are modelled as `Int` (the code compares `retries <= 0`, and
  subtraction must not truncate);
* `Infinity` sentinels (`autoReconnectRetries`, `keepAliveTimeoutMs`) are
  modelled as the `none` case of an `Option Int`;
* `setTimeout` handles (`retryTimeout`, `keepAliveTimeout`) become `Option`
  fields recording the armed delay (and, for the retry timer, the `retries`
  argument captured by the scheduled closure);
* the outcome of the external connection factory
  (`RequestHandlerHelper.makeRequestAndResolveWhenReady`), which the code
  only observes as resolve/reject of an awaited promise, is an explicit
  `Bool` input to every operation that performs a connection attempt;
* every operation returns, besides the next state, the ordered list of
  `Action`s it performed (events emitted, parser pushes, timer arming,
  teardown steps), so that ordering claims are statements about that trace.
-/

namespace TwitterStream

/-- Error categories of `ITweetStreamError.type` (the four members of
`ETwitterStreamEvent` that can appear as the `type` of a unified error). -/
inductive ErrKind
  | connectionError
  | tweetParseError
  | reconnectError
  | dataError
deriving DecidableEq, Repr

/-- Events emitted on the stream, mirroring `ETwitterStreamEvent` as used in
`TweetStream.ts`.  `α` is the decoded-message payload type (the class
parameter `T`).  Opaque JavaScript `Error` objects are not carried; the
unified `Error` event carries its category and, when the payload is a decoded
message (the `DataError` case), that message. -/
inductive Ev (α : Type)
  | Connected
  | Reconnected
  | ReconnectAttempt (tries : Int)
  | ReconnectError (tries : Int)
  | ReconnectLimitExceeded
  | ConnectionLost
  | ConnectionError
  | TweetParseError
  | Data (d : α)
  | DataError (d : α)
  | Error (kind : ErrKind) (payload : Option α)
  | ConnectionClosed
  | DataKeepAlive
deriving DecidableEq, Repr

/-- Event names, used as the keys of the stream's own `EventEmitter`
listener registry (`this.on(event, handler)`). -/
inductive EvName
  | Connected
  | Reconnected
  | ReconnectAttempt
  | ReconnectError
  | ReconnectLimitExceeded
  | ConnectionLost
  | ConnectionError
  | TweetParseError
  | Data
  | DataError
  | Error
  | ConnectionClosed
  | DataKeepAlive
deriving DecidableEq, Repr

/-- The name under which an event is emitted. -/
def evName : Ev α → EvName
  | .Connected => .Connected
  | .Reconnected => .Reconnected
  | .ReconnectAttempt _ => .ReconnectAttempt
  | .ReconnectError _ => .ReconnectError
  | .ReconnectLimitExceeded => .ReconnectLimitExceeded
  | .ConnectionLost => .ConnectionLost
  | .ConnectionError => .ConnectionError
  | .TweetParseError => .TweetParseError
  | .Data _ => .Data
  | .DataError _ => .DataError
  | .Error _ _ => .Error
  | .ConnectionClosed => .ConnectionClosed
  | .DataKeepAlive => .DataKeepAlive

/-- One observable step performed by a `TweetStream` operation, in program
order.  Teardown, factory invocation, parser interaction and timer arming
are recorded so that ordering claims can be read off the trace. -/
inductive Action (α : Type)
  | detachListeners
  | destroyReq
  | factoryCall
  | parserReset
  | bindRequestEvents
  | armWatchdog (ms : Int)
  | scheduleRetry (delay : Int) (retries : Int)
  | emitEv (e : Ev α)
  | parserPush (chunk : String)
deriving DecidableEq, Repr

/-- The mutable instance state of a `TweetStream`.

`req = none` means no request object is held yet; `req = some d` means a
request is held with `destroyed` flag `d`.  The paired response object is
held exactly when the request is, so one field covers both.

`parserBuf` is the internal buffer of the external `TweetStreamParser`
(owned by the stream instance through `this.parser`).

`listeners` is the stream's own `EventEmitter` registry: `(event, handler)`
pairs in registration order, handlers identified by `Nat` ids. -/
structure StreamState (α : Type) where
  autoReconnect : Bool
  autoReconnectRetries : Option Int
  keepAliveTimeoutMs : Option Int
  retryTimeout : Option (Int × Int)
  keepAliveTimeout : Option Int
  req : Option Bool
  parserBuf : List String
  payloadIsError : Option (α → Bool)
  listeners : List (EvName × Nat)

/-- The getter `safeReconnectRetries`: `9999999999` replaces `Infinity`
to avoid NaNs in the arithmetic. -/
def safeReconnectRetries (s : StreamState α) : Int :=
  match s.autoReconnectRetries with
  | none => 9999999999
  | some n => n

/-- Modelled from the spec: the external parser (`TweetStreamParser`, not
under `src/`) exposes `push(chunk)`, which appends the chunk to its internal
buffering state. -/
def parserPushState (buf : List String) (chunk : String) : List String :=
  buf ++ [chunk]

/-- Modelled from the spec: the external parser's `reset()` clears its
internal buffering state, so no mid-stream parse boundary survives. -/
def parserResetState (_ : List String) : List String := []

/-- Method `unbindKeepAliveTimeout()`: clear the watchdog timer. -/
def unbindKeepAliveTimeout (s : StreamState α) : StreamState α :=
  { s with keepAliveTimeout := none }

/-- Method `unbindRetryTimeout()`: clear the retry timer. -/
def unbindRetryTimeout (s : StreamState α) : StreamState α :=
  { s with retryTimeout := none }

/-- Method `unbindTimeouts()`: clear both timers. -/
def unbindTimeouts (s : StreamState α) : StreamState α :=
  unbindKeepAliveTimeout (unbindRetryTimeout s)

/-- Method `resetKeepAliveTimeout()`: unbind the watchdog, then rearm it unless
`keepAliveTimeoutMs` is `Infinity` (modelled as `none`). -/
def resetKeepAliveTimeout (s : StreamState α) : StreamState α × List (Action α) :=
  let s0 := unbindKeepAliveTimeout s
  match s0.keepAliveTimeoutMs with
  | none => (s0, [])
  | some ms => ({ s0 with keepAliveTimeout := some ms }, [Action.armWatchdog ms])

/-- Method `closeWithoutEmit()`: unbind both timers, detach all transport listeners
and destroy the request, emitting nothing.  The `some` branch covers the
`this.res` / `this.req` conditionals (both handles are held together). -/
def closeWithoutEmit (s : StreamState α) : StreamState α × List (Action α) :=
  let s0 := unbindTimeouts s
  match s0.req with
  | none => (s0, [])
  | some _ => ({ s0 with req := some true }, [Action.detachListeners, Action.destroyReq])

/-- Method `initEventsFromRequest()`: bind the `error` / `close` / `data` handlers
on the held transport pair, then start the keep-alive watchdog.  (The
source throws when no request is held; every caller in this development
holds one.) -/
def initEventsFromRequest (s : StreamState α) : StreamState α × List (Action α) :=
  let t := resetKeepAliveTimeout s
  (t.1, Action.bindRequestEvents :: t.2)

/-- Method `reconnect()`: remember whether this is the initial connection, silently
tear down a still-open prior session, await the external connection factory
(`ok` is whether its promise resolves), and on success bind the new handle
pair, emit `Connected`/`Reconnected`, reset the parser and rebind the
request events.  The returned `Bool` is `false` when the factory rejected
(the thrown error propagates to the caller before any further statement
runs). -/
def reconnect (s : StreamState α) (ok : Bool) : StreamState α × List (Action α) × Bool :=
  let initialConnection := s.req.isNone
  let t1 :=
    match s.req with
    | some destroyed => if destroyed then (s, ([] : List (Action α))) else closeWithoutEmit s
    | none => (s, [])
  let s1 := t1.1
  let a1 := t1.2
  if ok then
    let s2 := { s1 with req := some false }
    let connEv : Ev α := if initialConnection then Ev.Connected else Ev.Reconnected
    let s3 := { s2 with parserBuf := parserResetState s2.parserBuf }
    let t4 := initEventsFromRequest s3
    (t4.1, a1 ++ [Action.factoryCall, Action.emitEv connEv, Action.parserReset] ++ t4.2, true)
  else
    (s1, a1 ++ [Action.factoryCall], false)

/-- The expression `Math.min((tryOccurence ** 2) * 1000, 25000)` of `makeAutoReconnectRetry`. -/
def backoffDelay (tryOccurence : Int) : Int :=
  min (tryOccurence ^ 2 * 1000) 25000

/-- Method `makeAutoReconnectRetry(retries)`: schedule
`onConnectionError(retries - 1)` after the capped quadratic backoff delay. -/
def makeAutoReconnectRetry (s : StreamState α) (retries : Int) : StreamState α × List (Action α) :=
  let tryOccurence := safeReconnectRetries s - retries + 1
  let nextRetry := backoffDelay tryOccurence
  ({ s with retryTimeout := some (nextRetry, retries - 1) },
   [Action.scheduleRetry nextRetry (retries - 1)])

/-- Method `onConnectionError(retries = this.safeReconnectRetries)`: unbind both
timers, silently close a live request, then either terminate by events
(no auto-reconnect, or retries exhausted) or attempt a reconnect, emitting
`ReconnectAttempt` first and, if the attempt fails, `ReconnectError` plus
the unified error before scheduling the next retry. -/
def onConnectionError (s : StreamState α) (retries : Int) (ok : Bool) :
    StreamState α × List (Action α) :=
  let s0 := unbindTimeouts s
  let t1 :=
    match s0.req with
    | some destroyed => if destroyed then (s0, ([] : List (Action α))) else closeWithoutEmit s0
    | none => (s0, [])
  let s1 := t1.1
  let a1 := t1.2
  if s1.autoReconnect = false then
    (s1, a1 ++ [Action.emitEv Ev.ConnectionClosed])
  else if retries ≤ 0 then
    (s1, a1 ++ [Action.emitEv Ev.ReconnectLimitExceeded, Action.emitEv Ev.ConnectionClosed])
  else
    let attemptIdx := safeReconnectRetries s1 - retries
    let t2 := reconnect s1 ok
    if t2.2.2 then
      (t2.1, a1 ++ [Action.emitEv (Ev.ReconnectAttempt attemptIdx)] ++ t2.2.1)
    else
      let t3 := makeAutoReconnectRetry t2.1 retries
      (t3.1, a1 ++ [Action.emitEv (Ev.ReconnectAttempt attemptIdx)] ++ t2.2.1
        ++ [Action.emitEv (Ev.ReconnectError attemptIdx),
            Action.emitEv (Ev.Error ErrKind.reconnectError none)]
        ++ t3.2)

/-- The `errorHandler` closure of `initEventsFromRequest`, reached from
`req.on('error')`, `res.on('error')` and `res.on('close')`: emit
`ConnectionError` and the unified error, then run `onConnectionError()`
with its default argument (the full `safeReconnectRetries` budget). -/
def transportErrorHandler (s : StreamState α) (ok : Bool) : StreamState α × List (Action α) :=
  let t := onConnectionError s (safeReconnectRetries s) ok
  (t.1, [Action.emitEv Ev.ConnectionError, Action.emitEv (Ev.Error ErrKind.connectionError none)]
        ++ t.2)

/-- Method `onKeepAliveTimeout()`: the watchdog expired; emit `ConnectionLost`,
then run `onConnectionError()` with its default argument. -/
def onKeepAliveTimeout (s : StreamState α) (ok : Bool) : StreamState α × List (Action α) :=
  let t := onConnectionError s (safeReconnectRetries s) ok
  (t.1, Action.emitEv Ev.ConnectionLost :: t.2)

/-- The `res.on('data')` handler: rearm the watchdog, then either convert a
keep-alive marker chunk (`"\r\n"`) into a `DataKeepAlive` event or forward
the chunk to the external parser. -/
def onData (s : StreamState α) (chunk : String) : StreamState α × List (Action α) :=
  let t := resetKeepAliveTimeout s
  if chunk = "\r\n" then
    (t.1, t.2 ++ [Action.emitEv Ev.DataKeepAlive])
  else
    ({ t.1 with parserBuf := parserPushState t.1.parserBuf chunk },
     t.2 ++ [Action.parserPush chunk])

/-- The `EStreamParserEvent.ParsedData` handler of `initEventsFromParser`:
a decoded message flagged by `requestData.payloadIsError` yields `DataError`
then the unified error; otherwise it yields `Data`. -/
def onParsedData (s : StreamState α) (d : α) : StreamState α × List (Ev α) :=
  match s.payloadIsError with
  | some p =>
    if p d then (s, [Ev.DataError d, Ev.Error ErrKind.dataError (some d)])
    else (s, [Ev.Data d])
  | none => (s, [Ev.Data d])

/-- The `EStreamParserEvent.ParseError` handler of `initEventsFromParser`:
emit `TweetParseError` then the unified error. -/
def onParseError (s : StreamState α) : StreamState α × List (Ev α) :=
  (s, [Ev.TweetParseError, Ev.Error ErrKind.tweetParseError none])

/-- Method `close()`: emit `ConnectionClosed`, then tear down silently. -/
def close (s : StreamState α) : StreamState α × List (Action α) :=
  let t := closeWithoutEmit s
  (t.1, Action.emitEv Ev.ConnectionClosed :: t.2)

/-- Method `destroy()`: `removeAllListeners()` on the stream itself, then `close()`. -/
def destroy (s : StreamState α) : StreamState α × List (Action α) :=
  close { s with listeners := [] }

/-- Fire the armed retry timer (the `setTimeout` callback of
`makeAutoReconnectRetry`): run `onConnectionError` with the captured
decremented `retries` argument.  No armed timer means nothing happens. -/
def fireRetryTimer (s : StreamState α) (ok : Bool) : StreamState α × List (Action α) :=
  match s.retryTimeout with
  | none => (s, [])
  | some t => onConnectionError s t.2 ok

/-- Advance time by `dt` and fire at most one due timer, the way the
event loop would deliver it: the watchdog fires `onKeepAliveTimeout`, the
retry timer fires its captured `onConnectionError` call. -/
def advanceTime (s : StreamState α) (dt : Int) (ok : Bool) : StreamState α × List (Action α) :=
  match s.keepAliveTimeout with
  | some d => if d ≤ dt then onKeepAliveTimeout s ok else (s, [])
  | none =>
    match s.retryTimeout with
    | some t => if t.1 ≤ dt then onConnectionError s t.2 ok else (s, [])
    | none => (s, [])

/-- Repeatedly fire the armed retry timer with a factory that always
rejects, up to `fuel` firings: the all-attempts-fail episode driver. -/
def runFailingRetries (s : StreamState α) (fuel : Nat) : StreamState α × List (Action α) :=
  match fuel with
  | 0 => (s, [])
  | Nat.succ fuel1 =>
    match s.retryTimeout with
    | none => (s, [])
    | some t =>
      let u := onConnectionError s t.2 false
      let v := runFailingRetries u.1 fuel1
      (v.1, u.2 ++ v.2)

/-- A transport failure on a live connection followed by every subsequent
scheduled retry failing as well. -/
def failedEpisode (s : StreamState α) (fuel : Nat) : StreamState α × List (Action α) :=
  let t := transportErrorHandler s false
  let u := runFailingRetries t.1 fuel
  (u.1, t.2 ++ u.2)

/-- The events emitted along an action trace, in order. -/
def emittedEvents (as : List (Action α)) : List (Ev α) :=
  as.filterMap fun a =>
    match a with
    | .emitEv e => some e
    | _ => none

/-- The chunks pushed to the external parser along an action trace. -/
def parserPushes (as : List (Action α)) : List String :=
  as.filterMap fun a =>
    match a with
    | .parserPush c => some c
    | _ => none

/-- Whether an event is a `ReconnectAttempt`. -/
def isReconnectAttempt : Ev α → Bool
  | .ReconnectAttempt _ => true
  | _ => false

/-- Whether an action schedules a retry timer. -/
def isScheduleRetry : Action α → Bool
  | .scheduleRetry _ _ => true
  | _ => false

/-- Whether an event is `ReconnectLimitExceeded`. -/
def isReconnectLimitExceeded : Ev α → Bool
  | .ReconnectLimitExceeded => true
  | _ => false

/-- Whether an event is `ConnectionClosed`. -/
def isConnectionClosed : Ev α → Bool
  | .ConnectionClosed => true
  | _ => false

/-- A connected stream (live request, watchdog armed with the default two
minutes) with the given `autoReconnect` flag and retry budget, used as the
concrete instance of the proofs. -/
def connectedState (ar : Bool) (budget : Option Int) : StreamState Nat :=
  { autoReconnect := ar
    autoReconnectRetries := budget
    keepAliveTimeoutMs := some 120000
    retryTimeout := none
    keepAliveTimeout := some 120000
    req := some false
    parserBuf := []
    payloadIsError := none
    listeners := [] }

/-- State after a first transport failure whose reconnect attempt failed,
with `autoReconnect` on and a budget of 2: the retry timer is armed. -/
def c1EpisodeOne : StreamState Nat :=
  (transportErrorHandler (connectedState true (some 2)) false).1

/-- State after the armed retry then fired and its reconnect succeeded:
the stream is connected again (`Reconnecting` to `Connected`). -/
def c1AfterSuccess : StreamState Nat :=
  (fireRetryTimer c1EpisodeOne true).1

/-- A sample application-level error predicate for decoded `Nat` messages. -/
def samplePred : Nat → Bool := fun d => d % 2 = 0

/-- A connected stream whose request data carries `samplePred` as
`payloadIsError`. -/
def sampleStreamP : StreamState Nat :=
  { connectedState true (some 5) with payloadIsError := some samplePred }

/-- The handlers registered for event `n` in a listener registry, in
registration order (`this.listeners(name)`). -/
def listenersOf (ls : List (EvName × Nat)) (n : EvName) : List Nat :=
  ls.filterMap fun p => if p.1 = n then some p.2 else none

/-- Append a name if not already present (how an `EventEmitter` collects
its event names in first-registration order). -/
def insertName (acc : List EvName) (n : EvName) : List EvName :=
  if n ∈ acc then acc else acc ++ [n]

/-- Method `this.eventNames()`: the distinct registered event names, in
first-registration order. -/
def eventNames (ls : List (EvName × Nat)) : List EvName :=
  ls.foldl (fun acc p => insertName acc p.1) []

/-- The listener registry produced by `clone()`'s copy loop: for each name
of `eventNames`, every handler of `this.listeners(name)` in order. -/
def cloneListeners (ls : List (EvName × Nat)) : List (EvName × Nat) :=
  (eventNames ls).foldr (fun n acc => (listenersOf ls n).map (fun h => (n, h)) ++ acc) []

/-- Registration `newStream.on(listener, callback)`: register one handler. -/
def onRegister (s : StreamState α) (n : EvName) (h : Nat) : StreamState α :=
  { s with listeners := s.listeners ++ [(n, h)] }

/-- Modelled from the spec: `clone()` first calls
`RequestHandlerHelper(this.requestData).makeRequestAsStream()` (not under
`src/`), which issues a fresh connection from the same request data and
wraps the new handle pair in a new `TweetStream` through the constructor:
default reconnection options, no armed retry timer, empty own listener
registry, a live request, and the watchdog started by
`initEventsFromRequest`. -/
def newStreamOf (pred : Option (α → Bool)) : StreamState α :=
  let base : StreamState α :=
    { autoReconnect := false
      autoReconnectRetries := some 5
      keepAliveTimeoutMs := some 120000
      retryTimeout := none
      keepAliveTimeout := none
      req := some false
      parserBuf := []
      payloadIsError := pred
      listeners := [] }
  (initEventsFromRequest base).1

/-- Method `clone()`: make a new stream from the same request data, then for each
registered event name re-register every current handler on the new
instance. -/
def cloneStream (s : StreamState α) : StreamState α :=
  let ns := newStreamOf s.payloadIsError
  (eventNames s.listeners).foldl
    (fun acc n => (listenersOf s.listeners n).foldl (fun acc2 h => onRegister acc2 n h) acc) ns

/-- Select one of two coexisting stream instances. -/
def pick (w : StreamState α × StreamState α) (i : Bool) : StreamState α :=
  if i then w.1 else w.2

/-- Register a handler on one of two coexisting stream instances. -/
def regOn (w : StreamState α × StreamState α) (i : Bool) (n : EvName) (h : Nat) :
    StreamState α × StreamState α :=
  if i then (onRegister w.1 n h, w.2) else (w.1, onRegister w.2 n h)

/-- The handlers a stream's own `EventEmitter` invokes when event `n` is
emitted on it: exactly its own registered handlers for `n`. -/
def emitD (s : StreamState α) (n : EvName) : List Nat :=
  listenersOf s.listeners n

/-- Fire event `n` on one of two coexisting instances: each invocation is
a handler delivered through that instance's own bus, tagged with it. -/
def fireOn (w : StreamState α × StreamState α) (i : Bool) (n : EvName) : List (Bool × Nat) :=
  (emitD (pick w i) n).map fun h => (i, h)

/-- Pair every event emitted along a trace with the handlers the stream's
bus delivers it to, given the listener registry in force at emission. -/
def deliverTrace (ls : List (EvName × Nat)) (as : List (Action α)) : List (Ev α × List Nat) :=
  (emittedEvents as).map fun e => (e, listenersOf ls (evName e))

/-- The three events emitted by one failing reconnect attempt with index
`i`: the attempt, its failure, and the unified error. -/
def retryBlock (i : Int) : List (Ev α) :=
  [Ev.ReconnectAttempt i, Ev.ReconnectError i, Ev.Error ErrKind.reconnectError none]

/-- The concatenated event blocks of the failing attempts with the given
indices. -/
def retryBlocks (l : List Nat) : List (Ev α) :=
  l.foldr (fun i acc => retryBlock (i : Int) ++ acc) []

theorem emittedEvents_append (a b : List (Action α)) :
    emittedEvents (a ++ b) = emittedEvents a ++ emittedEvents b := by
  simp [emittedEvents]

theorem parserPushes_append (a b : List (Action α)) :
    parserPushes (a ++ b) = parserPushes a ++ parserPushes b := by
  simp [parserPushes]

/-- Claim C3: the backoff delay scheduled by `makeAutoReconnectRetry` before the
n-th reconnect retry (whose `retries` argument is the budget minus n - 1)
equals `min(n^2 * 1000, 25000)` milliseconds, and this delay is monotone
non-decreasing in n up to the 25000 ms cap. -/
theorem c3_backoff_delay (s : StreamState Nat) (n m : Nat)
    (h1 : 1 ≤ n) (h2 : (n : Int) ≤ safeReconnectRetries s) (h3 : n ≤ m) :
    (makeAutoReconnectRetry s (safeReconnectRetries s - ((n : Int) - 1))).2
      = [Action.scheduleRetry (min ((n : Int) ^ 2 * 1000) 25000)
          (safeReconnectRetries s - (n : Int))]
    ∧ (makeAutoReconnectRetry s (safeReconnectRetries s - ((n : Int) - 1))).1.retryTimeout
      = some (min ((n : Int) ^ 2 * 1000) 25000, safeReconnectRetries s - (n : Int))
    ∧ backoffDelay (n : Int) = min ((n : Int) ^ 2 * 1000) 25000
    ∧ backoffDelay (n : Int) ≤ backoffDelay (m : Int) := by
  have e1 : safeReconnectRetries s - (safeReconnectRetries s - ((n : Int) - 1)) + 1
      = (n : Int) := by ring
  have e2 : safeReconnectRetries s - ((n : Int) - 1) - 1
      = safeReconnectRetries s - (n : Int) := by ring
  have hnm : (n : Int) ≤ (m : Int) := by exact_mod_cast h3
  have h0 : (0 : Int) ≤ (n : Int) := Int.natCast_nonneg n
  have hsq : (n : Int) ^ 2 ≤ (m : Int) ^ 2 := pow_le_pow_left₀ h0 hnm 2
  have hmul : (n : Int) ^ 2 * 1000 ≤ (m : Int) ^ 2 * 1000 :=
    mul_le_mul_of_nonneg_right hsq (by norm_num)
  refine ⟨?_, ?_, rfl, ?_⟩
  · simp only [makeAutoReconnectRetry, e1, e2, backoffDelay]
  · simp only [makeAutoReconnectRetry, e1, e2, backoffDelay]
  · exact min_le_min hmul le_rfl

/-- Claim C3 witness at n = 2, m = 7, budget 5: delay 4000 ms, capped 25000 ms. -/
theorem c3_backoff_delay_witness :
    (1 ≤ 2 ∧ ((2 : Nat) : Int) ≤ safeReconnectRetries (connectedState true (some 5)) ∧ 2 ≤ 7)
    ∧ ((makeAutoReconnectRetry (connectedState true (some 5))
          (safeReconnectRetries (connectedState true (some 5)) - (((2 : Nat) : Int) - 1))).2
        = [Action.scheduleRetry (min (((2 : Nat) : Int) ^ 2 * 1000) 25000)
            (safeReconnectRetries (connectedState true (some 5)) - ((2 : Nat) : Int))]
      ∧ (makeAutoReconnectRetry (connectedState true (some 5))
          (safeReconnectRetries (connectedState true (some 5)) - (((2 : Nat) : Int) - 1))).1.retryTimeout
        = some (min (((2 : Nat) : Int) ^ 2 * 1000) 25000,
            safeReconnectRetries (connectedState true (some 5)) - ((2 : Nat) : Int))
      ∧ backoffDelay ((2 : Nat) : Int) = min (((2 : Nat) : Int) ^ 2 * 1000) 25000
      ∧ backoffDelay ((2 : Nat) : Int) ≤ backoffDelay ((7 : Nat) : Int)) :=
  ⟨by refine ⟨by decide, by decide, by decide⟩,
   c3_backoff_delay (connectedState true (some 5)) 2 7 (by decide) (by decide) (by decide)⟩

/-- Claim C5: every received chunk rearms the watchdog before being inspected
(the arming actions precede the chunk test in the trace, and the armed
timer equals the configured interval); the reserved keep-alive marker
produces only a `DataKeepAlive` event and is never pushed to the parser,
while any other chunk is forwarded to the parser's push and produces no
event. -/
theorem c5_chunk_handling (s : StreamState Nat) (chunk : String) :
    (onData s chunk).1.keepAliveTimeout = s.keepAliveTimeoutMs
    ∧ (onData s chunk).2
        = (resetKeepAliveTimeout s).2
          ++ (if chunk = "\r\n" then [Action.emitEv Ev.DataKeepAlive]
              else [Action.parserPush chunk])
    ∧ emittedEvents (onData s chunk).2
        = (if chunk = "\r\n" then [Ev.DataKeepAlive] else [])
    ∧ parserPushes (onData s chunk).2 = (if chunk = "\r\n" then [] else [chunk])
    ∧ (onData s chunk).1.parserBuf
        = (if chunk = "\r\n" then s.parserBuf else s.parserBuf ++ [chunk]) := by
  by_cases hc : chunk = "\r\n" <;>
    cases hk : s.keepAliveTimeoutMs <;>
      simp [onData, resetKeepAliveTimeout, unbindKeepAliveTimeout, parserPushState,
        emittedEvents, parserPushes, hc, hk]

/-- Claim C7: a decoded message flagged by the external predicate yields a
`DataError` event immediately followed by the unified error carrying that
category and payload, and no `Data` event; an unflagged message yields only
`Data`; a parser decode failure yields `TweetParseError` immediately
followed by the unified error; none of these paths changes the session
state or emits `ConnectionClosed`. -/
theorem c7_parser_outcomes (s : StreamState Nat) (p : Nat → Bool) (d : Nat)
    (hp : s.payloadIsError = some p) :
    (onParsedData s d).2
      = (if p d then [Ev.DataError d, Ev.Error ErrKind.dataError (some d)] else [Ev.Data d])
    ∧ (onParsedData s d).1 = s
    ∧ (onParseError s).2 = [Ev.TweetParseError, Ev.Error ErrKind.tweetParseError none]
    ∧ (onParseError s).1 = s
    ∧ Ev.ConnectionClosed ∉ (onParsedData s d).2
    ∧ Ev.ConnectionClosed ∉ (onParseError s).2 := by
  by_cases hd : p d <;> simp [onParsedData, onParseError, hp, hd]

/-- Claim C7 witness: predicate present, message 4 flagged, message 3 not. -/
theorem c7_parser_outcomes_witness :
    sampleStreamP.payloadIsError = some samplePred
    ∧ ((onParsedData sampleStreamP 4).2
        = (if samplePred 4 then [Ev.DataError 4, Ev.Error ErrKind.dataError (some 4)]
           else [Ev.Data 4])
      ∧ (onParsedData sampleStreamP 4).1 = sampleStreamP
      ∧ (onParseError sampleStreamP).2
        = [Ev.TweetParseError, Ev.Error ErrKind.tweetParseError none]
      ∧ (onParseError sampleStreamP).1 = sampleStreamP
      ∧ Ev.ConnectionClosed ∉ (onParsedData sampleStreamP 4).2
      ∧ Ev.ConnectionClosed ∉ (onParseError sampleStreamP).2) :=
  ⟨rfl, c7_parser_outcomes sampleStreamP samplePred 4 rfl⟩

/-- Claim C4: with `autoReconnect = false`, a transport failure (error or close,
both reaching `errorHandler`) or a watchdog expiry produces exactly one
`ConnectionClosed` event, no `ReconnectAttempt` event, and leaves no retry
timer armed and no retry scheduled along the trace. -/
theorem c4_no_autoreconnect (s : StreamState Nat) (ok : Bool)
    (h : s.autoReconnect = false) :
    emittedEvents (transportErrorHandler s ok).2
      = [Ev.ConnectionError, Ev.Error ErrKind.connectionError none, Ev.ConnectionClosed]
    ∧ emittedEvents (onKeepAliveTimeout s ok).2 = [Ev.ConnectionLost, Ev.ConnectionClosed]
    ∧ (transportErrorHandler s ok).1.retryTimeout = none
    ∧ (onKeepAliveTimeout s ok).1.retryTimeout = none
    ∧ ((transportErrorHandler s ok).2.countP fun a => isScheduleRetry a) = 0
    ∧ ((onKeepAliveTimeout s ok).2.countP fun a => isScheduleRetry a) = 0
    ∧ ((emittedEvents (transportErrorHandler s ok).2).countP fun e => isReconnectAttempt e) = 0
    ∧ ((emittedEvents (onKeepAliveTimeout s ok).2).countP fun e => isReconnectAttempt e) = 0
    ∧ (emittedEvents (transportErrorHandler s ok).2).count Ev.ConnectionClosed = 1
    ∧ (emittedEvents (onKeepAliveTimeout s ok).2).count Ev.ConnectionClosed = 1 := by
  rcases hreq : s.req with _ | b
  · simp [transportErrorHandler, onKeepAliveTimeout, onConnectionError, unbindTimeouts,
      unbindRetryTimeout, unbindKeepAliveTimeout, closeWithoutEmit, hreq, h,
      emittedEvents, isScheduleRetry, isReconnectAttempt, List.count_cons]
  · cases b <;>
      simp [transportErrorHandler, onKeepAliveTimeout, onConnectionError, unbindTimeouts,
        unbindRetryTimeout, unbindKeepAliveTimeout, closeWithoutEmit, hreq, h,
        emittedEvents, isScheduleRetry, isReconnectAttempt, List.count_cons]

/-- Claim C4 witness at a concrete connected stream with `autoReconnect = false`. -/
theorem c4_no_autoreconnect_witness :
    (connectedState false (some 5)).autoReconnect = false
    ∧ (emittedEvents (transportErrorHandler (connectedState false (some 5)) true).2
        = [Ev.ConnectionError, Ev.Error ErrKind.connectionError none, Ev.ConnectionClosed]
      ∧ emittedEvents (onKeepAliveTimeout (connectedState false (some 5)) true).2
        = [Ev.ConnectionLost, Ev.ConnectionClosed]
      ∧ (transportErrorHandler (connectedState false (some 5)) true).1.retryTimeout = none
      ∧ (onKeepAliveTimeout (connectedState false (some 5)) true).1.retryTimeout = none
      ∧ ((transportErrorHandler (connectedState false (some 5)) true).2.countP
          fun a => isScheduleRetry a) = 0
      ∧ ((onKeepAliveTimeout (connectedState false (some 5)) true).2.countP
          fun a => isScheduleRetry a) = 0
      ∧ ((emittedEvents (transportErrorHandler (connectedState false (some 5)) true).2).countP
          fun e => isReconnectAttempt e) = 0
      ∧ ((emittedEvents (onKeepAliveTimeout (connectedState false (some 5)) true).2).countP
          fun e => isReconnectAttempt e) = 0
      ∧ (emittedEvents (transportErrorHandler (connectedState false (some 5)) true).2).count
          Ev.ConnectionClosed = 1
      ∧ (emittedEvents (onKeepAliveTimeout (connectedState false (some 5)) true).2).count
          Ev.ConnectionClosed = 1) :=
  ⟨rfl, c4_no_autoreconnect (connectedState false (some 5)) true rfl⟩

/-- Claim C6: a successful reconnect performs, in program order, the silent
teardown of a still-open prior session (which emits nothing), then the
factory call, then the parser reset, then the binding of the new session
events and the arming of the watchdog; the resulting parser buffer is
empty and the new session is live. -/
theorem c6_reconnect_sequence (s : StreamState Nat) :
    (reconnect s true).2.1
      = (if s.req = some false then [Action.detachListeners, Action.destroyReq] else [])
        ++ [Action.factoryCall,
            Action.emitEv (if s.req = none then Ev.Connected else Ev.Reconnected),
            Action.parserReset, Action.bindRequestEvents]
        ++ (match s.keepAliveTimeoutMs with
            | some ms => [Action.armWatchdog ms]
            | none => [])
    ∧ (reconnect s true).1.parserBuf = []
    ∧ (reconnect s true).1.req = some false
    ∧ (reconnect s true).1.keepAliveTimeout = s.keepAliveTimeoutMs
    ∧ emittedEvents (closeWithoutEmit s).2 = [] := by
  rcases hreq : s.req with _ | b
  · cases hk : s.keepAliveTimeoutMs <;>
      simp [reconnect, closeWithoutEmit, unbindTimeouts, unbindRetryTimeout,
        unbindKeepAliveTimeout, initEventsFromRequest, resetKeepAliveTimeout,
        parserResetState, emittedEvents, hreq, hk]
  · cases b <;> cases hk : s.keepAliveTimeoutMs <;>
      simp [reconnect, closeWithoutEmit, unbindTimeouts, unbindRetryTimeout,
        unbindKeepAliveTimeout, initEventsFromRequest, resetKeepAliveTimeout,
        parserResetState, emittedEvents, hreq, hk]

/-- Claim C8: after `close()` (and after `destroy()`) no watchdog or retry timer
remains armed, the transport is no longer live, and advancing time by any
amount fires nothing and produces no event. -/
theorem c8_close_cancels_timers (s : StreamState Nat) (dt : Int) (ok : Bool) :
    (close s).1.retryTimeout = none
    ∧ (close s).1.keepAliveTimeout = none
    ∧ (close s).1.req ≠ some false
    ∧ advanceTime (close s).1 dt ok = ((close s).1, [])
    ∧ (destroy s).1.retryTimeout = none
    ∧ (destroy s).1.keepAliveTimeout = none
    ∧ (destroy s).1.req ≠ some false
    ∧ advanceTime (destroy s).1 dt ok = ((destroy s).1, []) := by
  rcases hreq : s.req with _ | b
  · simp [close, destroy, closeWithoutEmit, unbindTimeouts, unbindRetryTimeout,
      unbindKeepAliveTimeout, advanceTime, hreq]
  · cases b <;>
      simp [close, destroy, closeWithoutEmit, unbindTimeouts, unbindRetryTimeout,
        unbindKeepAliveTimeout, advanceTime, hreq]

/-- Claim C10: `destroy()` removes every registered listener before `close()`
emits `ConnectionClosed`, so that single emitted event is delivered to no
handler: no subscriber can observe the close caused by `destroy()`. -/
theorem c10_destroy_close_unobservable (s : StreamState Nat) :
    emittedEvents (destroy s).2 = [Ev.ConnectionClosed]
    ∧ (destroy s).1.listeners = []
    ∧ deliverTrace (destroy s).1.listeners (destroy s).2 = [(Ev.ConnectionClosed, [])] := by
  rcases hreq : s.req with _ | b
  · simp [destroy, close, closeWithoutEmit, unbindTimeouts, unbindRetryTimeout,
      unbindKeepAliveTimeout, emittedEvents, deliverTrace, listenersOf, evName, hreq]
  · cases b <;>
      simp [destroy, close, closeWithoutEmit, unbindTimeouts, unbindRetryTimeout,
        unbindKeepAliveTimeout, emittedEvents, deliverTrace, listenersOf, evName, hreq]

theorem onConnectionError_terminal (s : StreamState Nat) (r : Int) (ok : Bool)
    (h1 : s.autoReconnect = true) (hr : r ≤ 0) :
    emittedEvents (onConnectionError s r ok).2
      = [Ev.ReconnectLimitExceeded, Ev.ConnectionClosed]
    ∧ (onConnectionError s r ok).1.retryTimeout = none := by
  rcases hreq : s.req with _ | b
  · simp [onConnectionError, unbindTimeouts, unbindRetryTimeout, unbindKeepAliveTimeout,
      closeWithoutEmit, emittedEvents, hreq, h1, hr]
  · cases b <;>
      simp [onConnectionError, unbindTimeouts, unbindRetryTimeout, unbindKeepAliveTimeout,
        closeWithoutEmit, emittedEvents, hreq, h1, hr]

theorem onConnectionError_failing (s : StreamState Nat) (r : Int)
    (h1 : s.autoReconnect = true) (hr : 0 < r) :
    emittedEvents (onConnectionError s r false).2 = retryBlock (safeReconnectRetries s - r)
    ∧ (onConnectionError s r false).1.retryTimeout
        = some (backoffDelay (safeReconnectRetries s - r + 1), r - 1)
    ∧ (onConnectionError s r false).1.autoReconnect = s.autoReconnect
    ∧ (onConnectionError s r false).1.autoReconnectRetries = s.autoReconnectRetries := by
  have hr2 : ¬ r ≤ 0 := not_le.mpr hr
  rcases hreq : s.req with _ | b
  · simp [onConnectionError, reconnect, closeWithoutEmit, unbindTimeouts,
      unbindRetryTimeout, unbindKeepAliveTimeout, makeAutoReconnectRetry,
      safeReconnectRetries, emittedEvents, retryBlock, hreq, h1, hr2]
  · cases b <;>
      simp [onConnectionError, reconnect, closeWithoutEmit, unbindTimeouts,
        unbindRetryTimeout, unbindKeepAliveTimeout, makeAutoReconnectRetry,
        safeReconnectRetries, emittedEvents, retryBlock, hreq, h1, hr2]

theorem retryBlocks_cons (a : Nat) (t : List Nat) :
    (retryBlocks (a :: t) : List (Ev Nat)) = retryBlock (a : Int) ++ retryBlocks t := rfl

theorem retryBlocks_mem (l : List Nat) (e : Ev Nat) (he : e ∈ retryBlocks l) :
    isReconnectLimitExceeded e = false ∧ isConnectionClosed e = false := by
  induction l with
  | nil => simp [retryBlocks] at he
  | cons a t ih =>
    rw [retryBlocks_cons] at he
    rcases List.mem_append.mp he with h | h
    · simp [retryBlock] at h
      rcases h with rfl | rfl | rfl <;> simp [isReconnectLimitExceeded, isConnectionClosed]
    · exact ih h

theorem runFailingRetries_spec (N : Nat) :
    ∀ (k : Nat) (s : StreamState Nat) (d : Int),
      s.autoReconnect = true → s.autoReconnectRetries = some (N : Int) →
      s.retryTimeout = some (d, (k : Int)) → k ≤ N →
      emittedEvents (runFailingRetries s (k + 1)).2
          = retryBlocks (List.range' (N - k) k)
            ++ [Ev.ReconnectLimitExceeded, Ev.ConnectionClosed]
        ∧ (runFailingRetries s (k + 1)).1.retryTimeout = none := by
  intro k
  induction k with
  | zero =>
    intro s d h1 h2 h3 h4
    obtain ⟨e1, e2⟩ := onConnectionError_terminal s 0 false h1 le_rfl
    simp only [runFailingRetries, h3]
    simp [retryBlocks, e1, e2]
  | succ k ih =>
    intro s d h1 h2 h3 h4
    have hpos : (0 : Int) < ((k + 1 : Nat) : Int) := by exact_mod_cast Nat.succ_pos k
    obtain ⟨e1, e2, e3, e4⟩ := onConnectionError_failing s ((k + 1 : Nat) : Int) h1 hpos
    have e2x : (onConnectionError s ((k + 1 : Nat) : Int) false).1.retryTimeout
        = some (backoffDelay (safeReconnectRetries s - ((k + 1 : Nat) : Int) + 1),
                ((k : Nat) : Int)) := by
      rw [e2]
      congr 1
      congr 1
      omega
    obtain ⟨f1, f2⟩ := ih (onConnectionError s ((k + 1 : Nat) : Int) false).1
      (backoffDelay (safeReconnectRetries s - ((k + 1 : Nat) : Int) + 1))
      (by rw [e3, h1]) (by rw [e4, h2]) e2x (by omega)
    have hsafe : safeReconnectRetries s = (N : Int) := by
      simp [safeReconnectRetries, h2]
    have hidx : safeReconnectRetries s - ((k + 1 : Nat) : Int) = ((N - (k + 1) : Nat) : Int) := by
      rw [hsafe]; omega
    have hrange : List.range' (N - (k + 1)) (k + 1)
        = (N - (k + 1)) :: List.range' (N - k) k := by
      have hs1 : N - (k + 1) + 1 = N - k := by omega
      rw [List.range'_succ, hs1]
    constructor
    · simp only [runFailingRetries, h3, e2x] at f1 ⊢
      rw [emittedEvents_append, e1, f1, hidx, hrange]
      simp [retryBlocks]
    · simp only [runFailingRetries, h3, e2x] at f2 ⊢
      exact f2

/-- Claim C2: with `autoReconnect = true` and finite budget N, a transport
failure followed by N consecutive failed reconnect attempts emits the
full episode trace ending in `ReconnectLimitExceeded` immediately followed
by `ConnectionClosed`, each exactly once, and leaves no retry timer
armed. -/
theorem c2_retry_budget_exhaustion (N : Nat) (s : StreamState Nat)
    (h1 : s.autoReconnect = true) (h2 : s.autoReconnectRetries = some (N : Int)) :
    emittedEvents (failedEpisode s N).2
      = Ev.ConnectionError :: Ev.Error ErrKind.connectionError none ::
        (retryBlocks (List.range N) ++ [Ev.ReconnectLimitExceeded, Ev.ConnectionClosed])
    ∧ (failedEpisode s N).1.retryTimeout = none
    ∧ ((emittedEvents (failedEpisode s N).2).countP
        fun e => isReconnectLimitExceeded e) = 1
    ∧ ((emittedEvents (failedEpisode s N).2).countP
        fun e => isConnectionClosed e) = 1 := by
  have hsafe : safeReconnectRetries s = (N : Int) := by
    simp [safeReconnectRetries, h2]
  have main : emittedEvents (failedEpisode s N).2
      = Ev.ConnectionError :: Ev.Error ErrKind.connectionError none ::
        (retryBlocks (List.range N) ++ [Ev.ReconnectLimitExceeded, Ev.ConnectionClosed])
      ∧ (failedEpisode s N).1.retryTimeout = none := by
    cases N with
    | zero =>
      obtain ⟨e1, e2⟩ := onConnectionError_terminal s (safeReconnectRetries s) false h1
        (by simp [hsafe])
      constructor
      · simp only [failedEpisode, transportErrorHandler, runFailingRetries, e2]
        rw [emittedEvents_append, emittedEvents_append, e1]
        simp [emittedEvents, retryBlocks]
      · simp only [failedEpisode, transportErrorHandler, runFailingRetries, e2]
    | succ M =>
      have hpos : (0 : Int) < safeReconnectRetries s := by
        rw [hsafe]; exact_mod_cast Nat.succ_pos M
      obtain ⟨e1, e2, e3, e4⟩ := onConnectionError_failing s (safeReconnectRetries s) h1 hpos
      have e2x : (onConnectionError s (safeReconnectRetries s) false).1.retryTimeout
          = some (backoffDelay (safeReconnectRetries s - safeReconnectRetries s + 1),
                  ((M : Nat) : Int)) := by
        rw [e2]
        congr 1
        congr 1
        omega
      obtain ⟨f1, f2⟩ := runFailingRetries_spec (M + 1) M
        (onConnectionError s (safeReconnectRetries s) false).1
        (backoffDelay (safeReconnectRetries s - safeReconnectRetries s + 1))
        (by rw [e3, h1]) (by rw [e4, h2]) e2x (by omega)
      have hblocks : retryBlock (safeReconnectRetries s - safeReconnectRetries s)
            ++ retryBlocks (List.range' (M + 1 - M) M)
          = (retryBlocks (List.range (M + 1)) : List (Ev Nat)) := by
        have hz : safeReconnectRetries s - safeReconnectRetries s = ((0 : Nat) : Int) := by
          omega
        have hr1 : M + 1 - M = 1 := by omega
        rw [hz, hr1, List.range_eq_range', List.range'_succ]
        simp [retryBlocks]
      constructor
      · simp only [failedEpisode, transportErrorHandler]
        rw [emittedEvents_append, emittedEvents_append, e1, f1, ← hblocks]
        simp [emittedEvents, retryBlock]
      · simp only [failedEpisode, transportErrorHandler]
        exact f2
  obtain ⟨m1, m2⟩ := main
  refine ⟨m1, m2, ?_, ?_⟩
  · rw [m1]
    simp only [List.countP_cons, List.countP_append, isReconnectLimitExceeded,
      isConnectionClosed]
    simp
    intro a ha
    exact (retryBlocks_mem (List.range N) a ha).1
  · rw [m1]
    simp only [List.countP_cons, List.countP_append, isReconnectLimitExceeded,
      isConnectionClosed]
    simp
    intro a ha
    exact (retryBlocks_mem (List.range N) a ha).2

/-- Claim C2 witness: budget 2, both retries fail, episode ends with the two
terminal events exactly once and no armed retry timer. -/
theorem c2_retry_budget_exhaustion_witness :
    ((connectedState true (some 2)).autoReconnect = true
      ∧ (connectedState true (some 2)).autoReconnectRetries = some ((2 : Nat) : Int))
    ∧ (emittedEvents (failedEpisode (connectedState true (some 2)) 2).2
        = Ev.ConnectionError :: Ev.Error ErrKind.connectionError none ::
          (retryBlocks (List.range 2) ++ [Ev.ReconnectLimitExceeded, Ev.ConnectionClosed])
      ∧ (failedEpisode (connectedState true (some 2)) 2).1.retryTimeout = none
      ∧ ((emittedEvents (failedEpisode (connectedState true (some 2)) 2).2).countP
          fun e => isReconnectLimitExceeded e) = 1
      ∧ ((emittedEvents (failedEpisode (connectedState true (some 2)) 2).2).countP
          fun e => isConnectionClosed e) = 1) :=
  ⟨⟨rfl, rfl⟩, c2_retry_budget_exhaustion 2 (connectedState true (some 2)) rfl rfl⟩

/-- Claim C1 fails on the code: after an auto-retry reconnect succeeds, a later
transport failure in the same stream lifetime re-enters the failure
handler with its default argument, the full budget.  With budget 2, one
failed attempt and one successful attempt already made, the next failure
emits `ReconnectAttempt 0` again (counting restarts from zero) and arms
the retry timer with 1 remaining retry out of the full budget, instead of
continuing the exhausted budget of the claim. -/
theorem c1_counterexample :
    emittedEvents (fireRetryTimer c1EpisodeOne true).2
      = [Ev.ReconnectAttempt 1, Ev.Reconnected]
    ∧ emittedEvents (transportErrorHandler c1AfterSuccess false).2
      = [Ev.ConnectionError, Ev.Error ErrKind.connectionError none,
         Ev.ReconnectAttempt 0, Ev.ReconnectError 0, Ev.Error ErrKind.reconnectError none]
    ∧ (transportErrorHandler c1AfterSuccess false).1.retryTimeout = some (1000, 1) := by
  decide

/-- Claim C1 as amended: the retry budget is reset to full at the start of every
failure episode, not only by top-level `connect()`/`reconnect()`: any
transport failure handled by `errorHandler` calls `onConnectionError()`
with its default argument `safeReconnectRetries`, so the first attempt of
the new episode is numbered 0 and the armed retry timer carries the full
budget minus one, regardless of attempts made in earlier episodes. -/
theorem c1_budget_reset_each_episode (s : StreamState Nat)
    (h1 : s.autoReconnect = true) (h2 : 1 ≤ safeReconnectRetries s) :
    emittedEvents (transportErrorHandler s false).2
      = [Ev.ConnectionError, Ev.Error ErrKind.connectionError none,
         Ev.ReconnectAttempt 0, Ev.ReconnectError 0, Ev.Error ErrKind.reconnectError none]
    ∧ (transportErrorHandler s false).1.retryTimeout
      = some (backoffDelay 1, safeReconnectRetries s - 1) := by
  obtain ⟨e1, e2, e3, e4⟩ := onConnectionError_failing s (safeReconnectRetries s) h1
    (by omega)
  have hz : safeReconnectRetries s - safeReconnectRetries s = (0 : Int) := by omega
  have ho : safeReconnectRetries s - safeReconnectRetries s + 1 = (1 : Int) := by omega
  constructor
  · simp only [transportErrorHandler]
    rw [emittedEvents_append, e1, hz]
    simp [emittedEvents, retryBlock]
  · simp only [transportErrorHandler]
    rw [e2, ho]

/-- Claim C1 amended witness: the state reached after a successful auto-retry
reconnect (one failed and one successful attempt already made) still
starts its next failure episode at attempt 0 with the full budget. -/
theorem c1_budget_reset_each_episode_witness :
    (c1AfterSuccess.autoReconnect = true ∧ 1 ≤ safeReconnectRetries c1AfterSuccess)
    ∧ (emittedEvents (transportErrorHandler c1AfterSuccess false).2
        = [Ev.ConnectionError, Ev.Error ErrKind.connectionError none,
           Ev.ReconnectAttempt 0, Ev.ReconnectError 0, Ev.Error ErrKind.reconnectError none]
      ∧ (transportErrorHandler c1AfterSuccess false).1.retryTimeout
        = some (backoffDelay 1, safeReconnectRetries c1AfterSuccess - 1)) :=
  ⟨⟨by decide, by decide⟩,
   c1_budget_reset_each_episode c1AfterSuccess (by decide) (by decide)⟩

theorem listenersOf_append (l1 l2 : List (EvName × Nat)) (n : EvName) :
    listenersOf (l1 ++ l2) n = listenersOf l1 n ++ listenersOf l2 n := by
  simp [listenersOf]

theorem listenersOf_not_mem (ls : List (EvName × Nat)) (n : EvName)
    (h : n ∉ ls.map Prod.fst) : listenersOf ls n = [] := by
  induction ls with
  | nil => rfl
  | cons p t ih =>
    simp only [List.map_cons, List.mem_cons] at h
    push_neg at h
    obtain ⟨h1, h2⟩ := h
    have hne : ¬ p.1 = n := fun e => h1 e.symm
    simpa [listenersOf, List.filterMap_cons, hne] using ih h2

theorem mem_insertName (acc : List EvName) (n m : EvName) :
    m ∈ insertName acc n ↔ m ∈ acc ∨ m = n := by
  by_cases h : n ∈ acc
  · rw [insertName, if_pos h]
    constructor
    · exact Or.inl
    · rintro (hm | rfl)
      · exact hm
      · exact h
  · rw [insertName, if_neg h]
    simp

theorem nodup_insertName (acc : List EvName) (n : EvName) (h : acc.Nodup) :
    (insertName acc n).Nodup := by
  by_cases hn : n ∈ acc
  · rw [insertName, if_pos hn]
    exact h
  · rw [insertName, if_neg hn]
    simp [List.nodup_append, h, hn]

theorem foldl_insert_spec (ls : List (EvName × Nat)) :
    ∀ acc : List EvName, acc.Nodup →
      (ls.foldl (fun a p => insertName a p.1) acc).Nodup
      ∧ ∀ m, m ∈ ls.foldl (fun a p => insertName a p.1) acc
          ↔ m ∈ acc ∨ m ∈ ls.map Prod.fst := by
  induction ls with
  | nil =>
    intro acc h
    simp [h]
  | cons p t ih =>
    intro acc h
    obtain ⟨ih1, ih2⟩ := ih (insertName acc p.1) (nodup_insertName acc p.1 h)
    refine ⟨ih1, ?_⟩
    intro m
    rw [List.foldl_cons, ih2 m, mem_insertName]
    simp only [List.map_cons, List.mem_cons]
    tauto

theorem eventNames_nodup (ls : List (EvName × Nat)) : (eventNames ls).Nodup :=
  (foldl_insert_spec ls [] (by simp)).1

theorem mem_eventNames (ls : List (EvName × Nat)) (m : EvName) :
    m ∈ eventNames ls ↔ m ∈ ls.map Prod.fst := by
  have hm := (foldl_insert_spec ls [] (by simp)).2 m
  simpa [eventNames] using hm

theorem listenersOf_blocks (L : List (EvName × Nat)) (names : List EvName) (n : EvName)
    (hnd : names.Nodup) :
    listenersOf
        (names.foldr (fun m acc => (listenersOf L m).map (fun h => (m, h)) ++ acc) []) n
      = if n ∈ names then listenersOf L n else [] := by
  induction names with
  | nil => simp [listenersOf]
  | cons m t ih =>
    obtain ⟨hm, ht⟩ := List.nodup_cons.mp hnd
    rw [List.foldr_cons, listenersOf_append, ih ht]
    have hblock : listenersOf ((listenersOf L m).map (fun h => (m, h))) n
        = if m = n then listenersOf L n else [] := by
      by_cases hmn : m = n
      · subst hmn
        have hfn : ((fun p : EvName × Nat => if p.1 = m then some p.2 else none)
              ∘ fun h => (m, h)) = some := by
          funext x
          simp
        simp [listenersOf, List.filterMap_map, hfn]
      · simp [listenersOf, List.filterMap_map, Function.comp, hmn]
    rw [hblock]
    by_cases hmn : m = n
    · subst hmn
      simp [hm]
    · simp [hmn, Ne.symm hmn]

theorem listenersOf_cloneListeners (ls : List (EvName × Nat)) (n : EvName) :
    listenersOf (cloneListeners ls) n = listenersOf ls n := by
  rw [cloneListeners, listenersOf_blocks ls (eventNames ls) n (eventNames_nodup ls)]
  by_cases h : n ∈ eventNames ls
  · rw [if_pos h]
  · rw [if_neg h]
    exact (listenersOf_not_mem ls n (fun hm => h ((mem_eventNames ls n).mpr hm))).symm

theorem foldl_onRegister_inner (hs : List Nat) (n : EvName) :
    ∀ acc : StreamState Nat,
      (hs.foldl (fun a h => onRegister a n h) acc).listeners
        = acc.listeners ++ hs.map (fun h => (n, h)) := by
  induction hs with
  | nil =>
    intro acc
    simp
  | cons x t ih =>
    intro acc
    rw [List.foldl_cons, ih]
    simp [onRegister]

theorem foldl_onRegister_outer (L : List (EvName × Nat)) (names : List EvName) :
    ∀ acc : StreamState Nat,
      (names.foldl
          (fun a n => (listenersOf L n).foldl (fun a2 h => onRegister a2 n h) a) acc).listeners
        = acc.listeners
          ++ names.foldr (fun n r => (listenersOf L n).map (fun h => (n, h)) ++ r) [] := by
  induction names with
  | nil =>
    intro acc
    simp
  | cons m t ih =>
    intro acc
    rw [List.foldl_cons, ih, foldl_onRegister_inner]
    simp [List.append_assoc]

theorem cloneStream_listeners (s : StreamState Nat) :
    (cloneStream s).listeners = cloneListeners s.listeners := by
  simp only [cloneStream]
  rw [foldl_onRegister_outer]
  rfl

/-- Claim C9: `clone()` produces a new independent instance carrying, for every
event, exactly the original's registered handlers in order; registering
through one instance's bus never changes what the other delivers, and an
event fired on one instance only invokes handlers through that instance's
own bus. -/
theorem c9_clone_preserves_subscriptions (s : StreamState Nat) (n e : EvName)
    (h : Nat) (i : Bool) :
    listenersOf (cloneStream s).listeners n = listenersOf s.listeners n
    ∧ emitD (pick (regOn (s, cloneStream s) i e h) (!i)) n
      = emitD (pick (s, cloneStream s) (!i)) n
    ∧ (fireOn (s, cloneStream s) i e).all (fun x => x.1 == i) = true := by
  refine ⟨?_, ?_, ?_⟩
  · rw [cloneStream_listeners, listenersOf_cloneListeners]
  · cases i <;> simp [regOn, pick, emitD]
  · simp [fireOn, List.all_eq_true]

end TwitterStream
